import Mathlib

/-!
Verification of the Pentora Desktop-Agent core against its client
(`frontend/src/components/ToolsPage.js`) and the agent behaviour described in
the specification.  The frontend functions `handleRunTool`,
`handleWebSocketMessage` and `saveToolOutputToProject` are embedded directly
from the JavaScript source; the agent side (`agent.py` is not part of the
source tree, only its README and its caller are) is modelled from the spec.
-/

namespace Pentora

/-! ## JavaScript semantics helpers -/

/-- Rendering of a possibly-absent string field inside a JS template literal:
an absent field prints as `undefined`. -/
def jstr : Option String → String
  | some s => s
  | none => "undefined"

/-- Rendering of a possibly-absent integer field inside a JS template literal. -/
def jint : Option Int → String
  | some i => toString i
  | none => "undefined"

/-- `a || d` on an optional string, with JS falsiness: `null`/`undefined` and
the empty string fall back to the default. -/
def jsOr (o : Option String) (d : String) : String :=
  match o with
  | some s => if s = "" then d else s
  | none => d

/-- The whitespace characters removed by `String.prototype.trim` (ASCII part). -/
def isJsSpace (c : Char) : Bool :=
  c = ' ' || c = '\t' || c = '\n' || c = '\r' || c = '\x0b' || c = '\x0c'

/-- `String.prototype.trim`: strip leading and trailing whitespace. -/
def jsTrim (s : String) : String :=
  ⟨((s.data.dropWhile isJsSpace).reverse.dropWhile isJsSpace).reverse⟩

/-! ## Frontend: `handleRunTool` (ToolsPage.js lines 314-356) -/

/-- The message `handleRunTool` sends over the WebSocket. -/
structure ExecMessage where
  type : String
  tool : String
  target : String
  user_id : String
  tier : String
deriving DecidableEq, Repr

/-- The component state `handleRunTool` reads: the target input box, the
WebSocket connection flag, and the (possibly absent) authenticated user. -/
structure RunContext where
  targetInput : String
  wsConnected : Bool
  userId : Option String
  userTier : Option String
deriving DecidableEq, Repr

/-- Outcome of `handleRunTool`: either an early return with a toast error, or
a message sent to the Desktop Agent. -/
inductive RunResult where
  | rejected (toastMsg : String)
  | sent (msg : ExecMessage)
deriving DecidableEq, Repr

/-- The `toolMap` object literal of `handleRunTool`: display name to the
lowercase tool name used on the wire. -/
def toolMap (name : String) : Option String :=
  if name = "Subfinder" then some "subfinder"
  else if name = "Amass" then some "amass"
  else if name = "Nmap" then some "nmap"
  else if name = "Nuclei" then some "nuclei"
  else if name = "ffuf" then some "ffuf"
  else if name = "Gobuster" then some "gobuster"
  else none

/-- `handleRunTool(toolName)`: reject on empty (trimmed) target, reject when
the agent is not connected, reject unmapped tools, otherwise send the
`execute_tool` message with the trimmed target and user context. -/
def handleRunTool (ctx : RunContext) (toolName : String) : RunResult :=
  if jsTrim ctx.targetInput = "" then
    RunResult.rejected "Please enter a target first"
  else if ctx.wsConnected = false then
    RunResult.rejected "Desktop Agent not connected. Please start the Desktop Agent first."
  else
    match toolMap toolName with
    | none => RunResult.rejected "Tool not supported by Desktop Agent"
    | some wsToolName =>
        RunResult.sent
          { type := "execute_tool"
            tool := wsToolName
            target := jsTrim ctx.targetInput
            user_id := jsOr ctx.userId "anonymous"
            tier := jsOr ctx.userTier "essential" }

/-! ## Frontend: `handleWebSocketMessage` (ToolsPage.js lines 87-119) -/

/-- A parsed WebSocket message from the agent; every field the handler reads
is optional, as in the untyped JS object. -/
structure WSMessage where
  type : String
  tool : Option String
  target : Option String
  line : Option String
  message : Option String
  return_code : Option Int
  success : Option Bool
deriving DecidableEq, Repr

/-- The component state the WebSocket handler touches. -/
structure ClientState where
  runningTool : Option String
  wsOutput : String
  selectedProjectId : Option String
deriving DecidableEq, Repr

/-- Observable side effects of the handler: toasts, console logging and the
HTTP request issued by `saveToolOutputToProject`. -/
inductive Effect where
  | toastSuccess (msg : String)
  | toastError (msg : String)
  | toastInfo (msg : String)
  | consoleLog (msg : String)
  | apiPostToolOutput (tool_name target output status project_id : String)
deriving DecidableEq, Repr

/-- `saveToolOutputToProject` (ToolsPage.js lines 146-167): skip when no
project is selected, otherwise POST the output to `/tools/output`. -/
def saveToolOutputToProject (st : ClientState) (toolName target output : String) :
    List Effect :=
  match st.selectedProjectId with
  | none => [Effect.consoleLog "No project selected, skipping save"]
  | some pid => [Effect.apiPostToolOutput toolName target output "completed" pid]

/-- `handleWebSocketMessage(data)`: the switch on `data.type`.  On `complete`
the save uses the `wsOutput` value captured by the closure, i.e. the buffer
before the completion line is appended. -/
def handleWebSocketMessage (st : ClientState) (data : WSMessage) :
    ClientState × List Effect :=
  if data.type = "welcome" then
    (st, [Effect.consoleLog ("Desktop Agent welcome: " ++ jstr data.message)])
  else if data.type = "start" then
    ({ st with
        runningTool := data.tool
        wsOutput := "Starting " ++ jstr data.tool ++ " scan on " ++ jstr data.target ++ "...\n" },
     [Effect.toastInfo ("Starting " ++ jstr data.tool ++ " scan")])
  else if data.type = "output" then
    ({ st with wsOutput := st.wsOutput ++ jstr data.line ++ "\n" }, [])
  else if data.type = "complete" then
    let st' :=
      { st with
          runningTool := none
          wsOutput := st.wsOutput ++ "\n" ++ jstr data.tool
            ++ " scan completed (exit code: " ++ jint data.return_code ++ ")\n" }
    if data.success = some true then
      (st', Effect.toastSuccess (jstr data.tool ++ " scan completed successfully")
        :: saveToolOutputToProject st (jstr data.tool) (jstr data.target) st.wsOutput)
    else
      (st', [Effect.toastError (jstr data.tool ++ " scan failed")])
  else if data.type = "error" then
    ({ st with
        runningTool := none
        wsOutput := st.wsOutput ++ "\nError: " ++ jstr data.message ++ "\n" },
     [Effect.toastError (jstr data.message)])
  else
    (st, [Effect.consoleLog ("Unknown WebSocket message type: " ++ data.type)])

/-- Fold a list of inbound messages through the handler, keeping the state. -/
def processMessages (st : ClientState) (msgs : List WSMessage) : ClientState :=
  msgs.foldl (fun s m => (handleWebSocketMessage s m).1) st

/-- An `output` event carrying one line. -/
def outputEvent (l : String) : WSMessage :=
  { type := "output", tool := none, target := none, line := some l,
    message := none, return_code := none, success := none }

/-- A `start` event for tool `t` on target `g`. -/
def startEvent (t g : String) : WSMessage :=
  { type := "start", tool := some t, target := some g, line := none,
    message := none, return_code := none, success := none }

/-- The textual form of a sequence of output lines, one `\n` after each. -/
def linesBlob : List String → String
  | [] => ""
  | l :: ls => l ++ "\n" ++ linesBlob ls

/-! ## Desktop Agent, modelled from the spec

`agent.py` itself is not in the source tree (only its README and its frontend
caller are), so the agent-side definitions below are modelled from the spec:
§4.1 (allow-list registry), §4.2 (input validator), §4.3/§4.4 (one session per
connection, busy rejection) and §6 (message shapes). -/

/-- Modelled from the spec: the machine-readable reasons of §4.2/§7. -/
inductive ValidationReason where
  | too_long
  | empty
  | illegal_characters
  | unrecognized_shape
deriving DecidableEq, Repr

/-- Modelled from the spec: the §4.2 deny-list of shell metacharacters and
control characters. -/
def denyChars : List Char :=
  [';', '|', '&', '$', Char.ofNat 96, Char.ofNat 10, Char.ofNat 13,
   '<', '>', '(', ')', Char.ofNat 123, Char.ofNat 125, Char.ofNat 91,
   Char.ofNat 93, '*', '?', '!', '#', '%', '^', Char.ofNat 34,
   Char.ofNat 39, Char.ofNat 92]

/-- Does the string contain a deny-listed character? -/
def hasDeny (s : String) : Bool :=
  s.data.any (fun c => decide (c ∈ denyChars))

/-- Numeric value of a hexadecimal digit, `none` for other characters. -/
def hexVal (c : Char) : Option Nat :=
  if '0' ≤ c ∧ c ≤ '9' then some (c.toNat - '0'.toNat)
  else if 'a' ≤ c ∧ c ≤ 'f' then some (c.toNat - 'a'.toNat + 10)
  else if 'A' ≤ c ∧ c ≤ 'F' then some (c.toNat - 'A'.toNat + 10)
  else none

/-- Decode one `%XX` pair when both digits are hexadecimal. -/
def decodeHexPair (a b : Char) : Option Char :=
  match hexVal a, hexVal b with
  | some x, some y => some (Char.ofNat (16 * x + y))
  | _, _ => none

/-- Modelled from the spec: percent-decoding, applied before the deny-list
check (§4.2 edge cases, decode-then-check).  An invalid `%` sequence is kept
literally. -/
def percentDecodeAux : List Char → List Char
  | '%' :: a :: b :: rest =>
    (match decodeHexPair a b with
     | some ch => ch :: percentDecodeAux rest
     | none => '%' :: a :: b :: percentDecodeAux rest)
  | c :: rest => c :: percentDecodeAux rest
  | [] => []

/-- Percent-decoding on strings. -/
def percentDecode (s : String) : String :=
  ⟨percentDecodeAux s.data⟩

/-- Modelled from the spec: the §4.2 length bound (253, DNS limit plus slack). -/
def MAX_TARGET_LENGTH : Nat := 253

/-- Characters allowed in a hostname label. -/
def isHostnameChar (c : Char) : Bool :=
  c.isAlphanum || c = '-' || c = '.' || c = '_'

/-- Hostname/domain shape: non-empty, only label characters. -/
def isHostname (s : String) : Bool :=
  s ≠ "" && s.data.all isHostnameChar

/-- IPv4 literal shape: four dot-separated decimal octets, each at most 255. -/
def isIPv4 (s : String) : Bool :=
  match s.splitOn "." with
  | [a, b, c, d] =>
      [a, b, c, d].all fun p =>
        p ≠ "" && p.data.all Char.isDigit && (p.toNat?.getD 256) ≤ 255
  | _ => false

/-- IPv6 literal shape (coarse): contains a colon, only hex digits and colons. -/
def isIPv6 (s : String) : Bool :=
  s.data.contains ':' && s.data.all (fun c => (hexVal c).isSome || c = ':')

/-- CIDR shape: an IPv4 literal followed by `/prefix` with prefix ≤ 32. -/
def isCIDR (s : String) : Bool :=
  match s.splitOn "/" with
  | [ip, pre] =>
      isIPv4 ip && pre ≠ "" && pre.data.all Char.isDigit && (pre.toNat?.getD 33) ≤ 32
  | _ => false

/-- URL shape: an `http` or `https` scheme. -/
def isURL (s : String) : Bool :=
  s.startsWith "http://" || s.startsWith "https://"

/-- Modelled from the spec: the §4.2 accepted target shapes. -/
def isAcceptedShape (s : String) : Bool :=
  isHostname s || isIPv4 s || isIPv6 s || isCIDR s || isURL s

/-- Modelled from the spec: `validate(raw) -> Target | ValidationError` (§4.2).
The input is percent-decoded first (decode-then-check); the deny-list check is
performed before the other rules so that the §8 property — every string
containing a deny-listed metacharacter yields `illegal_characters` — holds for
all inputs. -/
def validate (raw : String) : Except ValidationReason String :=
  let decoded := percentDecode raw
  if hasDeny decoded then Except.error ValidationReason.illegal_characters
  else if MAX_TARGET_LENGTH < decoded.length then Except.error ValidationReason.too_long
  else if jsTrim decoded = "" then Except.error ValidationReason.empty
  else if isAcceptedShape (jsTrim decoded) then Except.ok (jsTrim decoded)
  else Except.error ValidationReason.unrecognized_shape

/-- Modelled from the spec: an immutable ToolDefinition (§3). -/
structure ToolDefinition where
  command : String
  args : List String
  description : String
deriving DecidableEq, Repr

/-- Modelled from the spec and the Desktop Agent README: the `ALLOWED_TOOLS`
table of `agent.py`, one entry per supported tool, each argument template with
a single `{target}` placeholder (the fixed arguments follow the command lines
shown on the Tools page). -/
def ALLOWED_TOOLS : List (String × ToolDefinition) :=
  [("subfinder",
    { command := "subfinder", args := ["-d", "\x7btarget\x7d"],
      description := "Fast passive subdomain discovery tool" }),
   ("amass",
    { command := "amass", args := ["enum", "-d", "\x7btarget\x7d"],
      description := "In-depth attack surface mapping" }),
   ("nmap",
    { command := "nmap", args := ["-sV", "-sC", "\x7btarget\x7d"],
      description := "Network discovery and port scanning" }),
   ("nuclei",
    { command := "nuclei", args := ["-u", "\x7btarget\x7d"],
      description := "Fast vulnerability scanner" }),
   ("ffuf",
    { command := "ffuf", args := ["-w", "wordlist.txt", "-u", "\x7btarget\x7d"],
      description := "Fast web fuzzer" }),
   ("gobuster",
    { command := "gobuster", args := ["dir", "-u", "\x7btarget\x7d", "-w", "wordlist.txt"],
      description := "Directory and file brute-forcer" })]

/-- Modelled from the spec: `lookup(name) -> ToolDefinition | NotFound` (§4.1). -/
def lookupTool (name : String) : Option ToolDefinition :=
  List.lookup name ALLOWED_TOOLS

/-- Modelled from the spec: explicit argv construction (§4.3) — the executable
followed by the fixed tokens, the placeholder replaced by the validated
target as one element. -/
def buildArgv (td : ToolDefinition) (target : String) : List String :=
  td.command :: td.args.map (fun a => if a = "\x7btarget\x7d" then target else a)

/-- Modelled from the spec: the ScanSession state machine of §3. -/
inductive SessionState where
  | Idle
  | Starting
  | Running
  | Completed
  | Failed
  | Cancelled
deriving DecidableEq, Repr

/-- The terminal states of the §3 state machine. -/
def SessionState.isTerminal : SessionState → Bool
  | SessionState.Completed => true
  | SessionState.Failed => true
  | SessionState.Cancelled => true
  | _ => false

/-- Modelled from the spec: a ScanSession bound to one connection (§3). -/
structure ScanSession where
  tool : String
  target : String
  state : SessionState
deriving DecidableEq, Repr

/-- Modelled from the spec: per-connection state — at most one current
session (§3 ConnectionContext). -/
structure ConnectionContext where
  currentSession : Option ScanSession
deriving DecidableEq, Repr

/-- Outcome of an `execute_tool` request at the agent: a rejection or the
spawn of a child process with an explicit argv. -/
inductive ExecOutcome where
  | busy
  | unsupported_tool
  | invalid (r : ValidationReason)
  | spawn (argv : List String)
deriving DecidableEq, Repr

/-- Does the outcome spawn a subprocess? -/
def spawnsProcess : ExecOutcome → Bool
  | ExecOutcome.spawn _ => true
  | _ => false

/-- Modelled from the spec: tool lookup, then target validation, then spawn
with a Running session bound to the connection (§4.4 `on_message`). -/
def startExec (conn : ConnectionContext) (tool target : String) :
    ConnectionContext × ExecOutcome :=
  match lookupTool tool with
  | none => (conn, ExecOutcome.unsupported_tool)
  | some td =>
    match validate target with
    | Except.error r => (conn, ExecOutcome.invalid r)
    | Except.ok t =>
        ({ currentSession := some { tool := tool, target := t, state := SessionState.Running } },
         ExecOutcome.spawn (buildArgv td t))

/-- Modelled from the spec: an `execute_tool` request on a connection — a
connection with a non-terminal session is rejected with `BusyError` and left
unchanged, not queued (§4.3). -/
def agentHandleExecute (conn : ConnectionContext) (tool target : String) :
    ConnectionContext × ExecOutcome :=
  match conn.currentSession with
  | some s =>
      if s.state.isTerminal then startExec conn tool target
      else (conn, ExecOutcome.busy)
  | none => startExec conn tool target

/-! ## Concrete instances used to exercise the claims -/

/-- The deny-listed metacharacters named by the §8 property:
`; | & $ `` ` `` \n < > ( ) " '`. -/
def c1Metas : List Char :=
  [';', '|', '&', '$', Char.ofNat 96, Char.ofNat 10, '<', '>', '(', ')',
   Char.ofNat 34, Char.ofNat 39]

/-- Does the string contain one of the §8 metacharacters? -/
def hasC1Meta (s : String) : Bool :=
  s.data.any (fun c => decide (c ∈ c1Metas))

/-- The lowercase wire names of the six allow-listed tools. -/
def allowedToolNames : List String :=
  ["subfinder", "amass", "nmap", "nuclei", "ffuf", "gobuster"]

/-- A client about to run a tool against an injection-attempt target. -/
def injCtx : RunContext :=
  { targetInput := "; rm -rf /", wsConnected := true, userId := none, userTier := none }

/-- A client with a plain hostname target and a live agent connection. -/
def okCtx : RunContext :=
  { targetInput := "example.com", wsConnected := true, userId := none, userTier := none }

/-- A client whose target input is only whitespace. -/
def blankCtx : RunContext :=
  { targetInput := "   ", wsConnected := true, userId := none, userTier := none }

/-- An agent connection with no session. -/
def idleConn : ConnectionContext := { currentSession := none }

/-- An agent connection whose session is still Running. -/
def busyConn : ConnectionContext :=
  { currentSession :=
      some { tool := "nmap", target := "example.com", state := SessionState.Running } }

/-- A successful `complete` event whose extra `target` field is `tgt`. -/
def completeEvt (tgt : String) : WSMessage :=
  { type := "complete", tool := some "nmap", target := some tgt, line := none,
    message := none, return_code := some 0, success := some true }

/-- A `complete` event agreeing with `completeEvt "a"` on `tool`,
`return_code`, `success` and `target`, but differing on other fields. -/
def completeEvtB : WSMessage :=
  { type := "complete", tool := some "nmap", target := some "a", line := some "ignored",
    message := some "extra", return_code := some 0, success := some true }

/-- A client state with a selected project, mid-scan. -/
def stProj : ClientState :=
  { runningTool := some "nmap", wsOutput := "", selectedProjectId := some "proj1" }

/-- An inbound message of a type the handler does not know. -/
def pingMsg : WSMessage :=
  { type := "ping", tool := none, target := none, line := none,
    message := none, return_code := none, success := none }

/-! ## Helper lemmas -/

/-- Every §8 metacharacter is a non-hex, non-`%` member of the deny-list. -/
lemma c1Metas_facts :
    c1Metas.all (fun c =>
      (hexVal c).isNone && decide (c ≠ '%') && decide (c ∈ denyChars)) = true := by
  decide

lemma decodeHexPair_some_left {a b ch : Char} (h : decodeHexPair a b = some ch) :
    (hexVal a).isSome := by
  unfold decodeHexPair at h
  cases ha : hexVal a <;> cases hb : hexVal b <;> simp [ha, hb] at h ⊢

lemma decodeHexPair_some_right {a b ch : Char} (h : decodeHexPair a b = some ch) :
    (hexVal b).isSome := by
  unfold decodeHexPair at h
  cases ha : hexVal a <;> cases hb : hexVal b <;> simp [ha, hb] at h ⊢

lemma percentDecodeAux_cons_ne {c : Char} (hc : c ≠ '%') (l : List Char) :
    percentDecodeAux (c :: l) = c :: percentDecodeAux l := by
  cases l with
  | nil => simp [percentDecodeAux]
  | cons a t =>
    cases t with
    | nil => simp [percentDecodeAux]
    | cons b t2 => simp [percentDecodeAux, hc]

/-- Percent-decoding preserves every character that is neither a hex digit
nor `%` — in particular every shell metacharacter survives the decode, so the
decode-then-check order cannot lose a deny-listed character. -/
lemma mem_percentDecodeAux {c : Char} (hh : hexVal c = none) (hp : c ≠ '%') :
    ∀ {l : List Char}, c ∈ l → c ∈ percentDecodeAux l := by
  intro l hl
  induction l using percentDecodeAux.induct with
  | case1 a b rest ch hd ih =>
    have heq : percentDecodeAux ('%' :: a :: b :: rest) = ch :: percentDecodeAux rest := by
      simp [percentDecodeAux, hd]
    rw [heq]
    rcases List.mem_cons.mp hl with h1 | hl1
    · exact absurd h1 hp
    rcases List.mem_cons.mp hl1 with h2 | hl2
    · exfalso
      have := decodeHexPair_some_left hd
      rw [← h2, hh] at this
      simp at this
    rcases List.mem_cons.mp hl2 with h3 | hl3
    · exfalso
      have := decodeHexPair_some_right hd
      rw [← h3, hh] at this
      simp at this
    · exact List.mem_cons_of_mem _ (ih hl3)
  | case2 a b rest hd ih =>
    have heq : percentDecodeAux ('%' :: a :: b :: rest)
        = '%' :: a :: b :: percentDecodeAux rest := by
      simp [percentDecodeAux, hd]
    rw [heq]
    rcases List.mem_cons.mp hl with h1 | hl1
    · exact List.mem_cons.mpr (Or.inl h1)
    rcases List.mem_cons.mp hl1 with h2 | hl2
    · exact List.mem_cons_of_mem _ (List.mem_cons.mpr (Or.inl h2))
    rcases List.mem_cons.mp hl2 with h3 | hl3
    · exact List.mem_cons_of_mem _ (List.mem_cons_of_mem _ (List.mem_cons.mpr (Or.inl h3)))
    · exact List.mem_cons_of_mem _ (List.mem_cons_of_mem _ (List.mem_cons_of_mem _ (ih hl3)))
  | case3 c' rest hne ih =>
    by_cases hc : c' = '%'
    · subst hc
      match rest, hne with
      | [], _ =>
        simpa [percentDecodeAux] using hl
      | [x], hne =>
        have heq : percentDecodeAux ['%', x] = ['%', x] := by simp [percentDecodeAux]
        rw [heq]
        exact hl
      | a :: b :: t, hne => exact (hne a b t rfl rfl).elim
    · rw [percentDecodeAux_cons_ne hc]
      rcases List.mem_cons.mp hl with h1 | hl1
      · exact List.mem_cons.mpr (Or.inl h1)
      · exact List.mem_cons_of_mem _ (ih hl1)
  | case4 => exact absurd hl (List.not_mem_nil c)

/-- Any string containing a §8 metacharacter is rejected by `validate` with
`illegal_characters`. -/
lemma validate_illegal {s : String} (h : hasC1Meta s = true) :
    validate s = Except.error ValidationReason.illegal_characters := by
  have hdeny : hasDeny (percentDecode s) = true := by
    unfold hasC1Meta at h
    rw [List.any_eq_true] at h
    obtain ⟨c, hcmem, hcmeta⟩ := h
    have hmeta : c ∈ c1Metas := of_decide_eq_true hcmeta
    have hfacts := List.all_eq_true.mp c1Metas_facts c hmeta
    simp only [Bool.and_eq_true, decide_eq_true_eq, Option.isNone_iff_eq_none] at hfacts
    obtain ⟨⟨hhex, hpct⟩, hden⟩ := hfacts
    have hdec : c ∈ (percentDecode s).data := mem_percentDecodeAux hhex hpct hcmem
    unfold hasDeny
    rw [List.any_eq_true]
    exact ⟨c, hdec, decide_eq_true hden⟩
  unfold validate
  simp [hdeny]

/-- The `toolMap` object only produces names from the allow-list. -/
lemma toolMap_mem {name l : String} (h : toolMap name = some l) :
    l ∈ allowedToolNames := by
  unfold toolMap at h
  split_ifs at h <;> simp_all [allowedToolNames]

/-- A successful registry lookup implies the name is on the allow-list. -/
lemma lookupTool_mem {name : String} {td : ToolDefinition}
    (h : lookupTool name = some td) : name ∈ allowedToolNames := by
  unfold lookupTool ALLOWED_TOOLS at h
  simp only [List.lookup] at h
  repeat' split at h
  all_goals simp_all [allowedToolNames, beq_iff_eq]

/-- Names outside the allow-list are not in the registry. -/
lemma lookupTool_eq_none {name : String} (h : name ∉ allowedToolNames) :
    lookupTool name = none := by
  cases hl : lookupTool name with
  | none => rfl
  | some td => exact absurd (lookupTool_mem hl) h

/-! ## Claims -/

/-- Claim C1, counterexample: the target `; rm -rf /` contains a deny-listed
metacharacter, yet `handleRunTool` dispatches the `execute_tool` command
carrying it to the agent — the frontend performs no metacharacter check, so
the claim that no such command is ever dispatched is false. -/
theorem C1_counterexample :
    hasC1Meta "; rm -rf /" = true ∧
    handleRunTool injCtx "Nmap" =
      RunResult.sent
        { type := "execute_tool", tool := "nmap", target := "; rm -rf /",
          user_id := "anonymous", tier := "essential" } := by
  constructor
  · decide
  · rfl

/-- Claim C1 (amended): for every target containing a deny-listed shell
metacharacter, the agent-side `validate` (modelled from the spec) returns
`illegal_characters` and the agent spawns no subprocess; the rejection
happens at the agent, not at the dispatching client. -/
theorem C1_theorem (tool target : String) (conn : ConnectionContext)
    (h : hasC1Meta target = true) :
    validate target = Except.error ValidationReason.illegal_characters ∧
    spawnsProcess (agentHandleExecute conn tool target).2 = false := by
  have hv := validate_illegal h
  refine ⟨hv, ?_⟩
  unfold agentHandleExecute startExec
  cases hcs : conn.currentSession with
  | none =>
    cases hlk : lookupTool tool with
    | none => simp [hlk, spawnsProcess]
    | some td => simp [hlk, hv, spawnsProcess]
  | some s =>
    cases ht : s.state.isTerminal with
    | false => simp [ht, spawnsProcess]
    | true =>
      cases hlk : lookupTool tool with
      | none => simp [ht, hlk, spawnsProcess]
      | some td => simp [ht, hlk, hv, spawnsProcess]

/-- Claim C1, witness: the amended theorem at the injection target. -/
theorem C1_witness :
    validate "; rm -rf /" = Except.error ValidationReason.illegal_characters ∧
    spawnsProcess (agentHandleExecute idleConn "nmap" "; rm -rf /").2 = false :=
  C1_theorem "nmap" "; rm -rf /" idleConn (by decide)

/-- Claim C2: an `execute_tool` request on a connection whose session is
still `Running` is answered with the busy error and the connection state is
left exactly as it was — the request is not queued and the first session is
unaffected. -/
theorem C2_theorem (conn : ConnectionContext) (s : ScanSession) (tool target : String)
    (h1 : conn.currentSession = some s) (h2 : s.state = SessionState.Running) :
    agentHandleExecute conn tool target = (conn, ExecOutcome.busy) := by
  unfold agentHandleExecute
  rw [h1]
  have ht : s.state.isTerminal = false := by rw [h2]; rfl
  simp [ht]

/-- Claim C2, witness: a second request on a connection running an nmap scan. -/
theorem C2_witness :
    agentHandleExecute busyConn "subfinder" "example.com" = (busyConn, ExecOutcome.busy) :=
  C2_theorem busyConn _ "subfinder" "example.com" rfl rfl

/-- Claim C3: every dispatched `execute_tool` message names a tool of the
fixed allow-list, and for a tool name outside the allow-list the agent never
spawns an executable. -/
theorem C3_theorem :
    (∀ (ctx : RunContext) (name : String) (msg : ExecMessage),
        handleRunTool ctx name = RunResult.sent msg → msg.tool ∈ allowedToolNames) ∧
    (∀ (conn : ConnectionContext) (tool target : String),
        tool ∉ allowedToolNames →
        spawnsProcess (agentHandleExecute conn tool target).2 = false) := by
  constructor
  · intro ctx name msg h
    unfold handleRunTool at h
    split_ifs at h
    cases hm : toolMap name with
    | none => rw [hm] at h; cases h
    | some l =>
      rw [hm] at h
      cases h
      exact toolMap_mem hm
  · intro conn tool target h
    have hlk := lookupTool_eq_none h
    unfold agentHandleExecute startExec
    cases hcs : conn.currentSession with
    | none => simp [hlk, spawnsProcess]
    | some s =>
      cases ht : s.state.isTerminal with
      | false => simp [ht, spawnsProcess]
      | true => simp [ht, hlk, spawnsProcess]

/-- Claim C3, witness: a dispatched Nmap run names an allow-listed tool, and
`sqlmap` (not allow-listed) spawns nothing. -/
theorem C3_witness :
    "nmap" ∈ allowedToolNames ∧
    spawnsProcess (agentHandleExecute idleConn "sqlmap" "example.com").2 = false :=
  ⟨C3_theorem.1 okCtx "Nmap"
      { type := "execute_tool", tool := "nmap", target := "example.com",
        user_id := "anonymous", tier := "essential" } rfl,
   C3_theorem.2 idleConn "sqlmap" "example.com" (by decide)⟩

/-- Claim C4, counterexample: two `complete` events agreeing on `tool`,
`return_code` and `success` but differing in their `target` field are handled
differently — the handler also reads `data.target` when saving the output, so
handling does not depend only on the three schema fields. -/
theorem C4_counterexample :
    (completeEvt "a").type = "complete" ∧
    (completeEvt "b").type = "complete" ∧
    (completeEvt "a").tool = (completeEvt "b").tool ∧
    (completeEvt "a").return_code = (completeEvt "b").return_code ∧
    (completeEvt "a").success = (completeEvt "b").success ∧
    handleWebSocketMessage stProj (completeEvt "a") ≠
      handleWebSocketMessage stProj (completeEvt "b") := by
  refine ⟨rfl, rfl, rfl, rfl, rfl, ?_⟩
  decide

/-- Claim C4 (amended): handling of a `complete` event depends only on the
`tool`, `return_code`, `success` and `target` fields (besides `type` and the
prior client state): two complete events agreeing on those four fields
produce identical state updates and identical follow-up effects. -/
theorem C4_theorem (st : ClientState) (e1 e2 : WSMessage)
    (ht1 : e1.type = "complete") (ht2 : e2.type = "complete")
    (h1 : e1.tool = e2.tool) (h2 : e1.return_code = e2.return_code)
    (h3 : e1.success = e2.success) (h4 : e1.target = e2.target) :
    handleWebSocketMessage st e1 = handleWebSocketMessage st e2 := by
  unfold handleWebSocketMessage
  rw [ht1, ht2, h1, h2, h3, h4]
  simp

/-- Claim C4, witness: two complete events agreeing on the four fields but
differing elsewhere are handled identically. -/
theorem C4_witness :
    handleWebSocketMessage stProj (completeEvt "a") =
      handleWebSocketMessage stProj completeEvtB :=
  C4_theorem stProj (completeEvt "a") completeEvtB rfl rfl rfl rfl rfl rfl

/-- Claim C5: for a mapped tool name, a target non-empty after trimming, and
a live connection, `handleRunTool` sends exactly the `execute_tool` message
whose `tool` is the lowercase mapped name and whose `target` is the trimmed
input, the remaining fields being the user context. -/
theorem C5_theorem (ctx : RunContext) (name lname : String)
    (hm : toolMap name = some lname) (ht : jsTrim ctx.targetInput ≠ "")
    (hc : ctx.wsConnected = true) :
    handleRunTool ctx name =
      RunResult.sent
        { type := "execute_tool", tool := lname, target := jsTrim ctx.targetInput,
          user_id := jsOr ctx.userId "anonymous", tier := jsOr ctx.userTier "essential" } := by
  unfold handleRunTool
  simp [ht, hc, hm]

/-- Claim C5, witness: running Subfinder on `example.com`. -/
theorem C5_witness :
    handleRunTool okCtx "Subfinder" =
      RunResult.sent
        { type := "execute_tool", tool := "subfinder", target := jsTrim okCtx.targetInput,
          user_id := jsOr okCtx.userId "anonymous", tier := jsOr okCtx.userTier "essential" } :=
  C5_theorem okCtx "Subfinder" "subfinder" rfl (by decide) rfl

/-- Claim C6: a sequence of `output` events with lines `l1..ln` appends
exactly those lines, each followed by one newline, in order, to the existing
buffer, and leaves the rest of the client state untouched. -/
theorem C6_theorem (st : ClientState) (ls : List String) :
    processMessages st (ls.map outputEvent) =
      { st with wsOutput := st.wsOutput ++ linesBlob ls } := by
  induction ls generalizing st with
  | nil => simp [processMessages, linesBlob, String.append_empty]
  | cons l ls ih =>
    have hstep : (handleWebSocketMessage st (outputEvent l)).1 =
        { st with wsOutput := st.wsOutput ++ l ++ "\n" } := by
      simp [handleWebSocketMessage, outputEvent, jstr]
    simp only [List.map_cons, processMessages, List.foldl_cons]
    rw [hstep]
    have := ih { st with wsOutput := st.wsOutput ++ l ++ "\n" }
    simp only [processMessages] at this
    rw [this]
    simp [linesBlob, String.append_assoc]

/-- Claim C7: a target that is empty after trimming is rejected before
anything is sent: `handleRunTool` returns the rejection toast and dispatches
no `execute_tool` command. -/
theorem C7_theorem (ctx : RunContext) (name : String) (h : jsTrim ctx.targetInput = "") :
    handleRunTool ctx name = RunResult.rejected "Please enter a target first" := by
  unfold handleRunTool
  simp [h]

/-- Claim C7, witness: an all-whitespace target is rejected. -/
theorem C7_witness :
    handleRunTool blankCtx "Nmap" = RunResult.rejected "Please enter a target first" :=
  C7_theorem blankCtx "Nmap" (by decide)

/-- Claim C8: registry lookup is deterministic — two lookups of the same name
return equal definitions, every returned definition is an entry of the
immutable `ALLOWED_TOOLS` table, and the frontend `toolMap` is likewise a
function of the name alone. -/
theorem C8_theorem :
    (∀ (n : String) (d1 d2 : ToolDefinition),
        lookupTool n = some d1 → lookupTool n = some d2 → d1 = d2) ∧
    (∀ (n : String) (d : ToolDefinition), lookupTool n = some d → (n, d) ∈ ALLOWED_TOOLS) ∧
    (∀ (n l1 l2 : String), toolMap n = some l1 → toolMap n = some l2 → l1 = l2) := by
  refine ⟨?_, ?_, ?_⟩
  · intro n d1 d2 h1 h2
    rw [h1] at h2
    exact Option.some.inj h2
  · intro n d h
    unfold lookupTool ALLOWED_TOOLS at h
    simp only [List.lookup] at h
    repeat' split at h
    all_goals simp_all [ALLOWED_TOOLS, beq_iff_eq]
  · intro n l1 l2 h1 h2
    rw [h1] at h2
    exact Option.some.inj h2

/-- Claim C8, witness: looking up `nmap` yields the registry entry. -/
theorem C8_witness :
    ("nmap",
      ({ command := "nmap", args := ["-sV", "-sC", "\x7btarget\x7d"],
         description := "Network discovery and port scanning" } : ToolDefinition)) ∈
      ALLOWED_TOOLS :=
  C8_theorem.2.1 "nmap" _ rfl

/-- Claim C9: an inbound message whose type is none of welcome, start,
output, complete or error leaves the whole client state unchanged and only
logs — no error is raised and no state field is touched. -/
theorem C9_theorem (st : ClientState) (m : WSMessage)
    (h : m.type ∉ (["welcome", "start", "output", "complete", "error"] : List String)) :
    handleWebSocketMessage st m =
      (st, [Effect.consoleLog ("Unknown WebSocket message type: " ++ m.type)]) := by
  simp only [List.mem_cons, List.mem_singleton, not_or] at h
  obtain ⟨h1, h2, h3, h4, h5, -⟩ := h
  unfold handleWebSocketMessage
  simp [h1, h2, h3, h4, h5]

/-- Claim C9, witness: a `ping` message leaves the state unchanged. -/
theorem C9_witness :
    handleWebSocketMessage stProj pingMsg =
      (stProj, [Effect.consoleLog ("Unknown WebSocket message type: " ++ "ping")]) :=
  C9_theorem stProj pingMsg (by decide)

/-- Claim C10: a `start` event for tool `t` on target `g` replaces the output
buffer with exactly the single line `Starting t scan on g...` plus a newline,
discarding all previous output, and sets the running-tool marker to `t`. -/
theorem C10_theorem (st : ClientState) (t g : String) :
    handleWebSocketMessage st (startEvent t g) =
      ({ st with
          runningTool := some t
          wsOutput := "Starting " ++ t ++ " scan on " ++ g ++ "...\n" },
       [Effect.toastInfo ("Starting " ++ t ++ " scan")]) := by
  simp [handleWebSocketMessage, startEvent, jstr]

end Pentora
